import Mathlib

/-!
Shallow embedding of the pinecone summary lambda handler (main.py together
with data_cleaning.py, date_utils.py, db_utils.py and vector_utils.py).
External collaborators (embedding provider, vector index, relational store,
wall clock) are supplied through a `World` of oracles; calls to them are
recorded in an event trace so that call/no-call properties can be stated.
Python floats never flow into arithmetic in this program, so vector elements
are modelled as integer-valued numerics versus non-numeric items, which is
the only distinction the code observes via isinstance checks.
-/

namespace Pine

/-! ## String helpers: Python str.split, str.strip -/

/-- Splits a character list at every occurrence of the separator, keeping
empty segments, mirroring the Python str.split of main.py (splitting the
comma separated article id field). -/
def splitOnChar : List Char → Char → List (List Char)
  | [], _ => [[]]
  | x :: xs, c =>
    let r := splitOnChar xs c
    if x == c then [] :: r
    else
      match r with
      | [] => [[x]]
      | h :: t => (x :: h) :: t

/-- Removes whitespace from both ends of a character list, mirroring
Python str.strip with no argument. -/
def trimChars (l : List Char) : List Char :=
  ((l.dropWhile Char.isWhitespace).reverse.dropWhile Char.isWhitespace).reverse

/-- str.strip on a whole string. -/
def strTrim (s : String) : String := String.mk (trimChars s.data)

/-- The token extraction applied to the delimited identifier field in
main.py: split on commas, strip whitespace, discard empty tokens. -/
def parseIds (s : String) : List String :=
  (splitOnChar s.data ',').filterMap fun t =>
    let t2 := trimChars t
    if t2.isEmpty then none else some (String.mk t2)

/-! ## Calendar model (datetime with the %Y-%m-%d format)

A datetime value is a civil date triple.  `toOrdinal` is the proleptic
Gregorian day number (day 1 is 0001-01-01), which is exactly how Python
datetime compares dates and adds timedeltas. -/

/-- Gregorian leap year rule used by Python datetime. -/
def isLeap (y : Nat) : Bool :=
  y % 4 == 0 && (y % 100 != 0 || y % 400 == 0)

/-- 1 on leap years, 0 otherwise. -/
def leapBit (y : Nat) : Nat := if isLeap y then 1 else 0

/-- Number of days in a month of a given year; 0 for an out of range month. -/
def daysInMonth (y m : Nat) : Nat :=
  match m with
  | 1 => 31
  | 2 => if isLeap y then 29 else 28
  | 3 => 31
  | 4 => 30
  | 5 => 31
  | 6 => 30
  | 7 => 31
  | 8 => 31
  | 9 => 30
  | 10 => 31
  | 11 => 30
  | 12 => 31
  | _ => 0

/-- Days elapsed in year `y` strictly before month `m` begins. -/
def daysBeforeMonth (y m : Nat) : Nat :=
  match m with
  | 1 => 0
  | 2 => 31
  | 3 => 59 + leapBit y
  | 4 => 90 + leapBit y
  | 5 => 120 + leapBit y
  | 6 => 151 + leapBit y
  | 7 => 181 + leapBit y
  | 8 => 212 + leapBit y
  | 9 => 243 + leapBit y
  | 10 => 273 + leapBit y
  | 11 => 304 + leapBit y
  | 12 => 334 + leapBit y
  | _ => 0

/-- Number of leap years in the interval from year 1 to year `y` inclusive. -/
def leapsBefore (y : Nat) : Nat := y / 4 - y / 100 + y / 400

/-- A civil date as held by a Python datetime value. -/
structure Date where
  year : Nat
  month : Nat
  day : Nat
deriving DecidableEq, Repr

/-- Proleptic Gregorian ordinal, identical to Python date.toordinal:
0001-01-01 maps to 1. -/
def toOrdinal (dt : Date) : Nat :=
  365 * (dt.year - 1) + leapsBefore (dt.year - 1)
    + daysBeforeMonth dt.year dt.month + dt.day

/-- The representable calendar dates (datetime validates these on
construction; MINYEAR is 1). -/
def ValidDate (dt : Date) : Prop :=
  1 ≤ dt.year ∧ 1 ≤ dt.month ∧ dt.month ≤ 12 ∧ 1 ≤ dt.day
    ∧ dt.day ≤ daysInMonth dt.year dt.month

instance (dt : Date) : Decidable (ValidDate dt) := by
  unfold ValidDate; infer_instance

/-- Adding one day, as datetime plus timedelta(days=1).  Returns none when
the result would pass MAXYEAR 9999, where Python raises OverflowError. -/
def nextDay (dt : Date) : Option Date :=
  if dt.day < daysInMonth dt.year dt.month then some ⟨dt.year, dt.month, dt.day + 1⟩
  else if dt.month < 12 then some ⟨dt.year, dt.month + 1, 1⟩
  else if dt.year < 9999 then some ⟨dt.year + 1, 1, 1⟩
  else none

/-- Subtracting one day, used only by the recent dates default. -/
def prevDay (dt : Date) : Date :=
  if 1 < dt.day then ⟨dt.year, dt.month, dt.day - 1⟩
  else if 1 < dt.month then ⟨dt.year, dt.month - 1, daysInMonth dt.year (dt.month - 1)⟩
  else ⟨dt.year - 1, 12, 31⟩

/-- datetime minus timedelta(days=i). -/
def subDays (dt : Date) : Nat → Date
  | 0 => dt
  | n + 1 => subDays (prevDay dt) n

/-- A decimal digit character. -/
def digitChar (n : Nat) : Char := Char.ofNat (48 + n)

/-- Four decimal digits, zero padded (the year field of %Y-%m-%d; datetime
years never exceed 9999 so the truncation is inert). -/
def pad4 (n : Nat) : List Char :=
  [digitChar (n / 1000 % 10), digitChar (n / 100 % 10),
   digitChar (n / 10 % 10), digitChar (n % 10)]

/-- Two decimal digits, zero padded. -/
def pad2 (n : Nat) : List Char :=
  [digitChar (n / 10 % 10), digitChar (n % 10)]

/-- date_utils.format_date: strftime with the %Y-%m-%d layout. -/
def format_date (dt : Date) : String :=
  String.mk (pad4 dt.year ++ ['-'] ++ pad2 dt.month ++ ['-'] ++ pad2 dt.day)

/-- Checks that a string has the shape YYYY-MM-DD: ten characters, digits
with dashes at positions four and seven. -/
def isYYYYMMDD (s : String) : Bool :=
  match s.data with
  | [a, b, c, d, e, f, g, h, i, j] =>
    a.isDigit && b.isDigit && c.isDigit && d.isDigit && e == '-'
      && f.isDigit && g.isDigit && h == '-' && i.isDigit && j.isDigit
  | _ => false

/-- The while loop of date_utils.generate_date_range, with the exact day
gap as structural fuel.  The error value models the OverflowError that
Python datetime raises when the increment passes 9999-12-31. -/
def dateRangeLoop : Nat → Date → Date → Except Unit (List String)
  | 0, _, _ => Except.ok []
  | fuel + 1, s, e =>
    if toOrdinal s ≤ toOrdinal e then
      match nextDay s with
      | none => Except.error ()
      | some s2 => (dateRangeLoop fuel s2 e).map (fun l => format_date s :: l)
    else Except.ok []

/-- Parses a %Y-%m-%d date string the way datetime.strptime does: a four
digit year, a one or two digit month and day, full match, then range
validation by the datetime constructor. -/
def parseDate (s : String) : Option Date :=
  match splitOnChar s.data '-' with
  | [yc, mc, dc] =>
    if yc.length = 4 && yc.all Char.isDigit
        && (mc.length = 1 || mc.length = 2) && mc.all Char.isDigit
        && (dc.length = 1 || dc.length = 2) && dc.all Char.isDigit then
      let y := yc.foldl (fun a c => a * 10 + (c.toNat - 48)) 0
      let m := mc.foldl (fun a c => a * 10 + (c.toNat - 48)) 0
      let d := dc.foldl (fun a c => a * 10 + (c.toNat - 48)) 0
      if 1 ≤ y ∧ 1 ≤ m ∧ m ≤ 12 ∧ 1 ≤ d ∧ d ≤ daysInMonth y m then
        some ⟨y, m, d⟩
      else none
    else none
  | _ => none

/-! ## Filter data model and data_cleaning.clean_empty_arrays_and_objects -/

/-- A scalar filter value: the program puts strings (dates, symbols,
categories) or numbers (scores) inside inclusion lists. -/
inductive Scalar where
  | s (v : String)
  | n (v : Int)
deriving DecidableEq, Repr

/-- A value inside the dynamic filter dictionary: a scalar, an inclusion
list of scalars, or a nested dictionary. -/
inductive CVal where
  | scalar (v : Scalar)
  | arr (l : List Scalar)
  | dict (m : List (String × CVal))

/-- data_cleaning.clean_empty_arrays_and_objects: recursively delete
dictionary entries whose value is an empty list, or a dictionary that is
empty after its own cleaning. -/
def clean_empty_arrays_and_objects : List (String × CVal) → List (String × CVal)
  | [] => []
  | (k, CVal.dict m) :: rest =>
    let c := clean_empty_arrays_and_objects m
    if c.isEmpty then clean_empty_arrays_and_objects rest
    else (k, CVal.dict c) :: clean_empty_arrays_and_objects rest
  | (k, CVal.arr l) :: rest =>
    if l.isEmpty then clean_empty_arrays_and_objects rest
    else (k, CVal.arr l) :: clean_empty_arrays_and_objects rest
  | (k, CVal.scalar v) :: rest => (k, CVal.scalar v) :: clean_empty_arrays_and_objects rest

/-- Holds when no entry anywhere in the dictionary tree carries an empty
inclusion list or an empty nested dictionary. -/
def goodMap : List (String × CVal) → Bool
  | [] => true
  | (_, CVal.dict m) :: rest => !m.isEmpty && goodMap m && goodMap rest
  | (_, CVal.arr l) :: rest => !l.isEmpty && goodMap rest
  | (_, CVal.scalar _) :: rest => goodMap rest

/-! ## Request payload -/

/-- The symbol field: a single string or a list of strings. -/
inductive SymVal where
  | one (v : String)
  | many (vs : List String)
deriving DecidableEq, Repr

/-- A score filter field: a single scalar or a list of scalars. -/
inductive ScoreVal where
  | one (v : Scalar)
  | many (vs : List Scalar)
deriving DecidableEq, Repr

/-- The JSON object payload fields read by lambda_handler. -/
structure Payload where
  symbol : Option SymVal
  cat : Option (List String)
  significancescore : Option ScoreVal
  sentimentscore : Option ScoreVal
  start_date : Option String
  end_date : Option String
  search_string : Option String
  top_k : Option Int
deriving DecidableEq, Repr

/-- Python truthiness of a scalar: empty string and zero are falsy. -/
def truthyScalar : Scalar → Bool
  | Scalar.s v => !(v == "")
  | Scalar.n v => !(v == 0)

/-- Python truthiness of the symbol field value. -/
def truthySym : SymVal → Bool
  | SymVal.one v => !(v == "")
  | SymVal.many vs => !vs.isEmpty

/-- Python truthiness of a score field value. -/
def truthyScore : ScoreVal → Bool
  | ScoreVal.one v => truthyScalar v
  | ScoreVal.many vs => !vs.isEmpty

/-- Coercion of the symbol field to a list, as in main.py. -/
def symToList : SymVal → List String
  | SymVal.one v => [v]
  | SymVal.many vs => vs

/-- Coercion of a score field to a list, as in main.py. -/
def scoreToList : ScoreVal → List Scalar
  | ScoreVal.one v => [v]
  | ScoreVal.many vs => vs

/-- The dynamic filter dictionary built by main.py once the created entry
is known: symbol, cat, significancescore and sentimentscore entries are
added when truthy, cat after dropping falsy members. -/
def buildFilters (p : Payload) (created : CVal) : List (String × CVal) :=
  let f := [("created", created)]
  let f := match p.symbol with
    | some sv =>
      if truthySym sv then
        f ++ [("symbol", CVal.dict [("$in", CVal.arr ((symToList sv).map Scalar.s))])]
      else f
    | none => f
  let f := match p.cat with
    | some c =>
      if !c.isEmpty then
        f ++ [("cat", CVal.dict [("$in", CVal.arr ((c.filter (fun x => !(x == ""))).map Scalar.s))])]
      else f
    | none => f
  let f := match p.significancescore with
    | some sv =>
      if truthyScore sv then
        f ++ [("significancescore", CVal.dict [("$in", CVal.arr (scoreToList sv))])]
      else f
    | none => f
  let f := match p.sentimentscore with
    | some sv =>
      if truthyScore sv then
        f ++ [("sentimentscore", CVal.dict [("$in", CVal.arr (scoreToList sv))])]
      else f
    | none => f
  f

/-! ## Date stage of the handler -/

/-- date_utils.generate_date_range: the inclusive day range as an
inclusion filter, or the overflow error when the increment passes the
datetime maximum. -/
def generate_date_range (s e : Date) : Except Unit CVal :=
  (dateRangeLoop (toOrdinal e + 1 - toOrdinal s) s e).map
    (fun dates => CVal.dict [("$in", CVal.arr (dates.map Scalar.s))])

/-- date_utils.generate_recent_dates: the last `days` calendar days
including today, as an inclusion filter. -/
def generate_recent_dates (today : Date) (days : Nat) : CVal :=
  CVal.dict [("$in", CVal.arr (((List.range days).map
    (fun i => format_date (subDays today i))).map Scalar.s))]

/-- Outcome of the date handling block of lambda_handler. -/
inductive DateOutcome where
  | ok (created : CVal)
  | badParse
  | badOrder
  | overflow

/-- Map of the date handling block: both bounds present and nonempty lead
to parsing, an order check, and range generation; otherwise the recent
five days default.  badParse stands for the strptime ValueError (its
message text is not modelled), badOrder for the explicit ValueError with
the fixed message, overflow for the OverflowError escaping to the generic
handler. -/
def dateStage (today : Date) (p : Payload) : DateOutcome :=
  match p.start_date, p.end_date with
  | some ss, some es =>
    if ss = "" ∨ es = "" then DateOutcome.ok (generate_recent_dates today 5)
    else
      match parseDate ss with
      | none => DateOutcome.badParse
      | some s =>
        match parseDate es with
        | none => DateOutcome.badParse
        | some e =>
          if toOrdinal e < toOrdinal s then DateOutcome.badOrder
          else
            match generate_date_range s e with
            | Except.ok created => DateOutcome.ok created
            | Except.error _ => DateOutcome.overflow
  | _, _ => DateOutcome.ok (generate_recent_dates today 5)

/-! ## Embedding vectors (vector_utils) -/

/-- An element of a candidate embedding vector: a numeric item or not.
The program never computes with the float values, it only checks
isinstance(item, (int, float)), so numerics are carried as integers. -/
inductive Elem where
  | num (x : Int)
  | nonNum
deriving DecidableEq, Repr

/-- What the embedding provider call may hand back: a list of items, or a
value of some other type with the given Python truthiness. -/
inductive EmbedVal where
  | lst (v : List Elem)
  | other (truthy : Bool)
deriving DecidableEq, Repr

/-- Python truthiness of an embedding result. -/
def truthyEV : EmbedVal → Bool
  | EmbedVal.lst v => !v.isEmpty
  | EmbedVal.other b => b

/-- vector_utils.is_valid_vector: a list of exactly the configured
dimension whose items are all numeric. -/
def is_valid_vector (vector : EmbedVal) (dimension : Nat) : Bool :=
  match vector with
  | EmbedVal.lst v =>
    v.length == dimension && v.all (fun e => match e with | Elem.num _ => true | Elem.nonNum => false)
  | EmbedVal.other _ => false

/-! ## Vector index matches and relational store rows -/

/-- The site and url pair attached to a resolved identifier. -/
structure SiteUrl where
  site : Option String
  url : Option String
deriving DecidableEq, Repr

/-- Metadata of an incoming match: the delimited identifier string under
the known key, and the remaining metadata entries, which the handler
carries through untouched. -/
structure MetaIn where
  article_ids : Option String
  rest : List (String × Scalar)
deriving DecidableEq, Repr

/-- One raw match from the vector index query. -/
structure MatchIn where
  id : String
  score : Int
  metadata : Option MetaIn
deriving DecidableEq, Repr

/-- Metadata of an assembled match: the identifier field replaced by the
identifier to record mapping. -/
structure MetaOut where
  article_ids : List (String × SiteUrl)
  rest : List (String × Scalar)
deriving DecidableEq, Repr

/-- One match of the serializable result. -/
structure MatchOut where
  id : String
  score : Int
  metadata : MetaOut
deriving DecidableEq, Repr

/-- The raw query response: matches plus the namespace name. -/
structure QueryResults where
  matchList : List MatchIn
  nspace : String
deriving DecidableEq, Repr

/-- One row of the STOCK_NEWS lookup. -/
structure Row where
  id : String
  site : Option String
  url : Option String
deriving DecidableEq, Repr

/-- Association list lookup, the dictionary read. -/
def lookupA {α : Type} : List (String × α) → String → Option α
  | [], _ => none
  | (k2, v) :: rest, k => if k2 == k then some v else lookupA rest k

/-- Dictionary assignment: overwrite in place when the key exists,
append otherwise. -/
def dictInsert {α : Type} : List (String × α) → String → α → List (String × α)
  | [], k, v => [(k, v)]
  | (k2, v2) :: rest, k, v =>
    if k2 == k then (k2, v) :: rest else (k2, v2) :: dictInsert rest k v

/-- Set insertion keeping one copy of each element. -/
def setInsert (s : List String) (x : String) : List String :=
  if x ∈ s then s else s ++ [x]

/-- The delimited identifier string of a match, with the dictionary get
defaults of main.py. -/
def matchIdsStr (m : MatchIn) : String :=
  ((m.metadata.getD ⟨none, []⟩).article_ids.getD "")

/-- The identifier collection loop of main.py: walk the matches, split
each nonempty identifier field, and take the union into one set. -/
def extract_article_ids_set (ms : List MatchIn) : List String :=
  ms.foldl
    (fun acc m =>
      let s := matchIdsStr m
      if s = "" then acc else (parseIds s).foldl setInsert acc)
    []

/-- db_utils.get_article_info_from_snowflake, first definition in the
file (the later duplicate bodies sit after its return and are dead code):
strip the ids, drop empties, run one batch query, and on any store
failure swallow the exception and return the empty mapping.  The collect
oracle stands for session.sql(query).collect(); none means it raised. -/
def get_article_info_from_snowflake (article_ids : List String)
    (collect : Option (List Row)) : List (String × SiteUrl) :=
  let _ids := ((article_ids.map strTrim).filter (fun a => !(a == "")))
  match collect with
  | none => []
  | some rows => rows.foldl (fun acc r => dictInsert acc r.id ⟨r.site, r.url⟩) []

/-- The per identifier record chosen by the assembly loop: the resolved
record when present in the fetched mapping, null fields otherwise. -/
def resolveRec (info : List (String × SiteUrl)) (aid : String) : SiteUrl :=
  match lookupA info aid with
  | some r => r
  | none => ⟨none, none⟩

/-- The articles_data dictionary of the assembly loop. -/
def articles_data (aids : List String) (info : List (String × SiteUrl)) :
    List (String × SiteUrl) :=
  aids.foldl (fun acc aid => dictInsert acc aid (resolveRec info aid)) []

/-- The per match body of the serialization loop of main.py: re-split the
identifier field, build the identifier to record mapping, and substitute
it for the delimited string, keeping the other metadata and the id and
score. -/
def assembleMatch (info : List (String × SiteUrl)) (m : MatchIn) : MatchOut :=
  let md := m.metadata.getD ⟨none, []⟩
  let s := md.article_ids.getD ""
  if s = "" then ⟨m.id, m.score, ⟨[], md.rest⟩⟩
  else ⟨m.id, m.score, ⟨articles_data (parseIds s) info, md.rest⟩⟩

/-! ## The handler -/

/-- The serializable_results value: assembled matches plus namespace,
wrapped under the summaries key in the 200 body. -/
structure ResponseData where
  matchList : List MatchOut
  nspace : String
deriving DecidableEq, Repr

/-- Response bodies.  jsonErr carries the error key object; the two
opaque constructors stand for bodies whose message text interpolates a
Python exception string (strptime errors and vector query errors). -/
inductive RBody where
  | empty
  | jsonStr (s : String)
  | jsonErr (msg : String)
  | dateFormatErr
  | queryNamespaceErr
  | jsonData (d : ResponseData)
deriving DecidableEq, Repr

/-- An HTTP style response; the CORS headers are a constant and are not
modelled. -/
structure Response where
  statusCode : Nat
  body : RBody
deriving DecidableEq, Repr

/-- Parse outcome of the request body: json.loads raised, yielded a non
object value, or yielded an object with the recognized fields. -/
inductive Body where
  | malformed
  | nonObject
  | obj (p : Payload)
deriving DecidableEq, Repr

/-- The incoming event: HTTP method and body (the base64 flag only
changes decoding and is left out). -/
structure Event where
  method : String
  body : Body
deriving DecidableEq, Repr

/-- The external world: infrastructure flags for the three cold start
steps, the wall clock, and oracles for the embedding provider, the
vector index query and the relational store collect call.  none from an
oracle means the call raised. -/
structure World where
  pineconeInitOk : Bool
  sessionOk : Bool
  openaiKeyPresent : Bool
  today : Date
  embed : String → Option EmbedVal
  queryResult : Option QueryResults
  collect : List String → Option (List Row)

/-- Externally visible calls recorded while handling a request. -/
structure QueryCall where
  nspace : String
  vector : List Elem
  top_k : Int
  include_metadata : Bool
deriving DecidableEq, Repr

/-- Trace events: session lifecycle plus the three outbound pipeline
calls. -/
inductive Ev where
  | sessionCreated
  | embedCalled (s : String)
  | queryCalled (q : QueryCall)
  | lookupCalled (ids : List String)
  | sessionClosed
deriving DecidableEq, Repr

/-- The search string block of main.py: empty search yields the zero
vector of the configured dimension without touching the provider; a non
empty search calls the provider and demands a valid vector, none meaning
the 500 embedding error return. -/
def vectorStage (w : World) (search : String) : Option (List Elem) :=
  if search = "" then some (List.replicate 1536 (Elem.num 0))
  else
    match w.embed search with
    | none => none
    | some ev =>
      if !truthyEV ev || !is_valid_vector ev 1536 then none
      else
        match ev with
        | EmbedVal.lst v => some v
        | EmbedVal.other _ => none

/-- The inner try block of main.py: the namespace query, identifier
extraction, conditional batch lookup, assembly and session close.  A
query failure returns the 500 before the close statement is reached. -/
def queryStage (w : World) (top_k : Int) (vec : List Elem) : Response × List Ev :=
  let call : QueryCall := ⟨"summaries", vec, top_k, true⟩
  match w.queryResult with
  | none => (⟨500, RBody.queryNamespaceErr⟩, [Ev.queryCalled call])
  | some qr =>
    let ids := extract_article_ids_set qr.matchList
    let info := if ids.isEmpty then []
      else get_article_info_from_snowflake ids (w.collect ids)
    let lookupEvs := if ids.isEmpty then [] else [Ev.lookupCalled ids]
    let out := qr.matchList.map (assembleMatch info)
    (⟨200, RBody.jsonData ⟨out, qr.nspace⟩⟩,
      [Ev.queryCalled call] ++ lookupEvs ++ [Ev.sessionClosed])

/-- The body of the outer try block once the payload object is in hand:
date handling, filter construction (computed, then not passed to the
query, mirroring the commented out filter argument), search handling and
the query stage. -/
def runPipeline (w : World) (p : Payload) : Response × List Ev :=
  match dateStage w.today p with
  | DateOutcome.badParse => (⟨400, RBody.dateFormatErr⟩, [])
  | DateOutcome.badOrder =>
    (⟨400, RBody.jsonErr "Invalid date format: start_date cannot be after end_date."⟩, [])
  | DateOutcome.overflow => (⟨500, RBody.jsonStr "Internal Server Error"⟩, [])
  | DateOutcome.ok created =>
    let _filters := clean_empty_arrays_and_objects (buildFilters p created)
    let search := strTrim (p.search_string.getD "")
    let embedEvs := if search = "" then [] else [Ev.embedCalled search]
    match vectorStage w search with
    | none => (⟨500, RBody.jsonErr "Error generating vector from search string."⟩, embedEvs)
    | some vec =>
      let q := queryStage w (p.top_k.getD 3) vec
      (q.1, embedEvs ++ q.2)

/-- main.lambda_handler: method dispatch, cold start steps, body parsing
and the pipeline, with the except clauses for JSONDecodeError and for
everything else. -/
def lambda_handler (w : World) (ev : Event) : Response × List Ev :=
  if ev.method = "OPTIONS" then (⟨200, RBody.empty⟩, [])
  else if ev.method ≠ "POST" then (⟨405, RBody.jsonStr "Method Not Allowed"⟩, [])
  else if !w.pineconeInitOk then (⟨500, RBody.jsonStr "Internal Server Error"⟩, [])
  else if !w.sessionOk then (⟨500, RBody.jsonStr "Internal Server Error"⟩, [])
  else if !w.openaiKeyPresent then
    (⟨500, RBody.jsonStr "Internal Server Error"⟩, [Ev.sessionCreated])
  else
    match ev.body with
    | Body.malformed => (⟨400, RBody.jsonErr "Invalid JSON payload."⟩, [Ev.sessionCreated])
    | Body.nonObject => (⟨500, RBody.jsonStr "Internal Server Error"⟩, [Ev.sessionCreated])
    | Body.obj p =>
      let r := runPipeline w p
      (r.1, Ev.sessionCreated :: r.2)

/-- The nearest neighbor calls recorded in a trace. -/
def queryCallsOf (tr : List Ev) : List QueryCall :=
  tr.filterMap (fun e => match e with | Ev.queryCalled q => some q | _ => none)

/-- The article info mapping the handler works with: empty when no
identifier was extracted (the lookup is skipped), otherwise the result
of the batch lookup. -/
def infoOf (w : World) (qr : QueryResults) : List (String × SiteUrl) :=
  if (extract_article_ids_set qr.matchList).isEmpty then []
  else get_article_info_from_snowflake (extract_article_ids_set qr.matchList)
    (w.collect (extract_article_ids_set qr.matchList))

/-! ## Concrete sample inputs for the witness theorems -/

/-- A sample match listing two identifiers. -/
def exM1 : MatchIn := ⟨"m1", 5, some ⟨some "a1, b2", [("k", Scalar.s "v")]⟩⟩

/-- A sample one match query result. -/
def exQR : QueryResults := ⟨[exM1], "summaries"⟩

/-- A healthy world: one match, the store resolves b2. -/
def exW1 : World := ⟨true, true, true, ⟨2024, 1, 10⟩, fun _ => none, some exQR,
  fun _ => some [⟨"b2", some "siteB", some "urlB"⟩]⟩

/-- A world whose store collect call raises and whose embedding provider
fails. -/
def exW2 : World := ⟨true, true, true, ⟨2024, 1, 10⟩, fun _ => none, some exQR,
  fun _ => none⟩

/-- A world whose vector query raises. -/
def exWq : World := ⟨true, true, true, ⟨2024, 1, 10⟩, fun _ => none, none, fun _ => none⟩

/-- The empty payload. -/
def exP0 : Payload := ⟨none, none, none, none, none, none, none, none⟩

/-- A payload with a nonempty search string. -/
def exPS : Payload := ⟨none, none, none, none, none, none, some " hello ", none⟩

/-- A payload with a symbol filter. -/
def exPSym : Payload := ⟨some (SymVal.one "AAPL"), none, none, none, none, none, none, none⟩

/-- A payload whose start date is after its end date. -/
def exPd : Payload := ⟨none, none, none, none, some "2024-03-05", some "2024-03-01", none, none⟩

/-! ## Calendar lemmas: the day increment advances the ordinal by one -/

theorem leapsLB (x : Nat) (h : 9999 ≤ x) : 2424 ≤ leapsBefore x := by
  unfold leapsBefore; omega

theorem leapBit_eq (y : Nat) :
    leapBit y = if y % 4 = 0 ∧ (¬y % 100 = 0 ∨ y % 400 = 0) then 1 else 0 := by
  unfold leapBit isLeap
  rcases eq_or_ne (y % 4) 0 with h4 | h4 <;> rcases eq_or_ne (y % 100) 0 with h100 | h100 <;>
      rcases eq_or_ne (y % 400) 0 with h400 | h400 <;>
    simp [h4, h100, h400]

theorem leaps_succ (y : Nat) (h : 1 ≤ y) :
    leapsBefore y = leapsBefore (y - 1) + leapBit y := by
  rw [leapBit_eq]
  by_cases hc : y % 4 = 0 ∧ (¬y % 100 = 0 ∨ y % 400 = 0)
  · rw [if_pos hc]
    obtain ⟨h4, hor⟩ := hc
    unfold leapsBefore
    rcases hor with h100 | h400
    · omega
    · omega
  · rw [if_neg hc]
    unfold leapsBefore
    push_neg at hc
    by_cases h4 : y % 4 = 0
    · obtain ⟨h100, h400⟩ := hc h4
      omega
    · omega

theorem dim_pos (y m : Nat) (h1 : 1 ≤ m) (h2 : m ≤ 12) : 1 ≤ daysInMonth y m := by
  interval_cases m <;> first
    | (show (1:Nat) ≤ 31; omega)
    | (show (1:Nat) ≤ 30; omega)
    | (show (1:Nat) ≤ if isLeap y then 29 else 28; split <;> omega)

theorem dbm_succ (y m : Nat) (h1 : 1 ≤ m) (h2 : m ≤ 11) :
    daysBeforeMonth y (m + 1) = daysBeforeMonth y m + daysInMonth y m := by
  interval_cases m <;>
    simp only [daysInMonth, daysBeforeMonth, leapBit] <;> split <;> omega

theorem dbm12 (y : Nat) : daysBeforeMonth y 12 + daysInMonth y 12 = 365 + leapBit y := by
  simp only [daysInMonth, daysBeforeMonth, leapBit]; omega

theorem toOrdinal_mk (y m d : Nat) :
    toOrdinal ⟨y, m, d⟩ = 365 * (y - 1) + leapsBefore (y - 1) + daysBeforeMonth y m + d := rfl

theorem validDate_mk (y m d : Nat) :
    ValidDate ⟨y, m, d⟩ ↔ 1 ≤ y ∧ 1 ≤ m ∧ m ≤ 12 ∧ 1 ≤ d ∧ d ≤ daysInMonth y m := Iff.rfl

theorem toOrdinal_nextDay (dt dt2 : Date) (h : ValidDate dt) (hn : nextDay dt = some dt2) :
    toOrdinal dt2 = toOrdinal dt + 1 ∧ ValidDate dt2 := by
  obtain ⟨hy, hm1, hm2, hd1, hd2⟩ := h
  unfold nextDay at hn
  by_cases hlt : dt.day < daysInMonth dt.year dt.month
  · rw [if_pos hlt] at hn
    injection hn with hn
    subst hn
    constructor
    · rw [toOrdinal_mk]; unfold toOrdinal; omega
    · rw [validDate_mk]; exact ⟨hy, hm1, hm2, by omega, by omega⟩
  · rw [if_neg hlt] at hn
    have hde : dt.day = daysInMonth dt.year dt.month := by omega
    by_cases hm12 : dt.month < 12
    · rw [if_pos hm12] at hn
      injection hn with hn
      subst hn
      constructor
      · have := dbm_succ dt.year dt.month hm1 (by omega)
        rw [toOrdinal_mk]; unfold toOrdinal
        omega
      · rw [validDate_mk]
        refine ⟨hy, by omega, by omega, by omega, ?_⟩
        have := dim_pos dt.year (dt.month + 1) (by omega) (by omega)
        omega
    · rw [if_neg hm12] at hn
      by_cases hy9 : dt.year < 9999
      · rw [if_pos hy9] at hn
        injection hn with hn
        subst hn
        have hmeq : dt.month = 12 := by omega
        have h12 := dbm12 dt.year
        have hls := leaps_succ dt.year hy
        constructor
        · rw [toOrdinal_mk]; unfold toOrdinal
          rw [hmeq] at hd2 hde ⊢
          have hb1 : daysBeforeMonth (dt.year + 1) 1 = 0 := rfl
          simp only [Nat.add_sub_cancel]
          omega
        · rw [validDate_mk]
          have : (31:Nat) ≤ daysInMonth (dt.year + 1) 1 := by simp [daysInMonth]
          exact ⟨by omega, by omega, by omega, by omega, by omega⟩
      · rw [if_neg hy9] at hn
        cases hn

theorem nextDay_isSome (dt : Date) (h : ValidDate dt) (hb : toOrdinal dt < 3652059) :
    ∃ dt2, nextDay dt = some dt2 := by
  obtain ⟨hy, hm1, hm2, hd1, hd2⟩ := h
  unfold nextDay
  by_cases hlt : dt.day < daysInMonth dt.year dt.month
  · exact ⟨_, if_pos hlt⟩
  · rw [if_neg hlt]
    by_cases hm12 : dt.month < 12
    · exact ⟨_, if_pos hm12⟩
    · rw [if_neg hm12]
      by_cases hy9 : dt.year < 9999
      · exact ⟨_, if_pos hy9⟩
      · exfalso
        have hmeq : dt.month = 12 := by omega
        have hde : dt.day = 31 := by
          rw [hmeq] at hlt hd2
          simp [daysInMonth] at hd2 hlt
          omega
        rcases eq_or_ne dt.year 9999 with h99 | h99
        · have : toOrdinal dt = 3652059 := by
            unfold toOrdinal
            rw [h99, hmeq, hde]
            decide
          omega
        · have hge : 10000 ≤ dt.year := by omega
          have hlb := leapsLB (dt.year - 1) (by omega)
          have : 334 ≤ daysBeforeMonth dt.year dt.month := by
            rw [hmeq]; simp [daysBeforeMonth]
          unfold toOrdinal at hb
          omega

/-! ## The date range loop -/

theorem digit_isDigit (n : Nat) : (digitChar (n % 10)).isDigit = true := by
  have h : n % 10 < 10 := Nat.mod_lt _ (by omega)
  set k := n % 10 with hk
  interval_cases k <;> decide

theorem format_shape (dt : Date) : isYYYYMMDD (format_date dt) = true := by
  simp [isYYYYMMDD, format_date, pad4, pad2, digit_isDigit]

theorem dateRangeLoop_ok : ∀ (fuel : Nat) (s e : Date), ValidDate s →
    fuel = toOrdinal e + 1 - toOrdinal s → toOrdinal e < 3652059 →
    ∃ l, dateRangeLoop fuel s e = Except.ok l ∧ l.length = fuel ∧
      ∀ x ∈ l, ∃ dt, ValidDate dt ∧ toOrdinal s ≤ toOrdinal dt ∧
        toOrdinal dt ≤ toOrdinal e ∧ x = format_date dt := by
  intro fuel
  induction fuel with
  | zero =>
    intro s e _ _ _
    exact ⟨[], rfl, rfl, by intro x hx; cases hx⟩
  | succ n ih =>
    intro s e hv hf hb
    have hle : toOrdinal s ≤ toOrdinal e := by omega
    obtain ⟨s2, hs2⟩ := nextDay_isSome s hv (by omega)
    obtain ⟨hord, hv2⟩ := toOrdinal_nextDay s s2 hv hs2
    obtain ⟨l, hl, hlen, hmem⟩ := ih s2 e hv2 (by omega) hb
    refine ⟨format_date s :: l, ?_, by simp [hlen], ?_⟩
    · unfold dateRangeLoop
      rw [if_pos hle, hs2]
      dsimp only
      rw [hl]
      rfl
    · intro x hx
      rcases List.mem_cons.mp hx with hx | hx
      · exact ⟨s, hv, le_refl _, hle, hx⟩
      · obtain ⟨dt, hdv, h1, h2, h3⟩ := hmem x hx
        exact ⟨dt, hdv, by omega, h2, h3⟩

/-! ## Dictionary, set and list lemmas -/

theorem lookupA_dictInsert_self {α : Type} (m : List (String × α)) (k : String) (v : α) :
    lookupA (dictInsert m k v) k = some v := by
  induction m with
  | nil => simp [dictInsert, lookupA]
  | cons hd t ih =>
    obtain ⟨k2, v2⟩ := hd
    by_cases he : k2 = k
    · simp [dictInsert, he, lookupA]
    · simp [dictInsert, he, lookupA, ih]

theorem lookupA_dictInsert_ne {α : Type} (m : List (String × α)) (k : String) (v : α)
    (a : String) (hne : a ≠ k) : lookupA (dictInsert m k v) a = lookupA m a := by
  have hka : ¬k = a := fun h => hne h.symm
  induction m with
  | nil => simp [dictInsert, lookupA, hka]
  | cons hd t ih =>
    obtain ⟨k2, v2⟩ := hd
    by_cases he : k2 = k
    · subst he
      simp [dictInsert, lookupA, hka]
    · by_cases ha : k2 = a
      · simp [dictInsert, he, lookupA, ha, hne]
      · simp [dictInsert, he, lookupA, ha, ih]

theorem mem_dictInsert {α : Type} (m : List (String × α)) (k : String) (v : α)
    (a : String) (b : α) (h : (a, b) ∈ dictInsert m k v) : a = k ∨ (a, b) ∈ m := by
  induction m with
  | nil =>
    simp [dictInsert] at h
    exact Or.inl h.1
  | cons hd t ih =>
    obtain ⟨k2, v2⟩ := hd
    by_cases he : k2 = k
    · subst he
      simp [dictInsert] at h
      rcases h with ⟨ha, _⟩ | hm
      · exact Or.inl ha
      · exact Or.inr (List.mem_cons_of_mem _ hm)
    · simp [dictInsert, he] at h
      rcases h with ⟨ha, hb⟩ | hm
      · exact Or.inr (by simp [ha, hb])
      · rcases ih hm with h1 | h2
        · exact Or.inl h1
        · exact Or.inr (List.mem_cons_of_mem _ h2)

theorem articles_data_step (info : List (String × SiteUrl)) :
    ∀ (l : List String) (acc : List (String × SiteUrl)) (aid : String),
      (aid ∈ l ∨ lookupA acc aid = some (resolveRec info aid)) →
      lookupA (l.foldl (fun acc2 a => dictInsert acc2 a (resolveRec info a)) acc) aid
        = some (resolveRec info aid) := by
  intro l
  induction l with
  | nil =>
    intro acc aid h
    rcases h with h | h
    · cases h
    · exact h
  | cons x xs ih =>
    intro acc aid h
    simp only [List.foldl_cons]
    by_cases hax : aid = x
    · subst hax
      exact ih _ _ (Or.inr (lookupA_dictInsert_self _ _ _))
    · rcases h with h | h
      · rcases List.mem_cons.mp h with h1 | h1
        · exact absurd h1 hax
        · exact ih _ _ (Or.inl h1)
      · refine ih _ _ (Or.inr ?_)
        rw [lookupA_dictInsert_ne _ _ _ _ hax]
        exact h

theorem articles_data_lookup (info : List (String × SiteUrl)) (aids : List String)
    (aid : String) (h : aid ∈ aids) :
    lookupA (articles_data aids info) aid = some (resolveRec info aid) :=
  articles_data_step info aids [] aid (Or.inl h)

theorem articles_data_keys_step (info : List (String × SiteUrl)) :
    ∀ (l : List String) (acc : List (String × SiteUrl)) (k : String) (r : SiteUrl),
      (k, r) ∈ l.foldl (fun acc2 a => dictInsert acc2 a (resolveRec info a)) acc →
      (k, r) ∈ acc ∨ k ∈ l := by
  intro l
  induction l with
  | nil =>
    intro acc k r h
    exact Or.inl h
  | cons x xs ih =>
    intro acc k r h
    simp only [List.foldl_cons] at h
    rcases ih _ _ _ h with h1 | h1
    · rcases mem_dictInsert _ _ _ _ _ h1 with h2 | h2
      · exact Or.inr (by simp [h2])
      · exact Or.inl h2
    · exact Or.inr (List.mem_cons_of_mem _ h1)

theorem articles_data_keys (info : List (String × SiteUrl)) (aids : List String)
    (k : String) (r : SiteUrl) (h : (k, r) ∈ articles_data aids info) : k ∈ aids := by
  rcases articles_data_keys_step info aids [] k r h with h1 | h1
  · cases h1
  · exact h1

theorem mem_setInsert (s : List String) (x a : String) :
    a ∈ setInsert s x ↔ a ∈ s ∨ a = x := by
  unfold setInsert
  by_cases h : x ∈ s
  · rw [if_pos h]
    constructor
    · exact Or.inl
    · rintro (h1 | rfl)
      · exact h1
      · exact h
  · rw [if_neg h]
    simp

theorem nodup_setInsert (s : List String) (x : String) (h : s.Nodup) :
    (setInsert s x).Nodup := by
  unfold setInsert
  by_cases hm : x ∈ s
  · rw [if_pos hm]; exact h
  · rw [if_neg hm]
    simpa [List.nodup_append] using ⟨h, hm⟩

theorem mem_foldl_setInsert : ∀ (l : List String) (acc : List String) (a : String),
    a ∈ l.foldl setInsert acc ↔ a ∈ acc ∨ a ∈ l := by
  intro l
  induction l with
  | nil => simp
  | cons x xs ih =>
    intro acc a
    simp only [List.foldl_cons, ih, mem_setInsert, List.mem_cons]
    tauto

theorem nodup_foldl_setInsert : ∀ (l : List String) (acc : List String),
    acc.Nodup → (l.foldl setInsert acc).Nodup := by
  intro l
  induction l with
  | nil => intro acc h; exact h
  | cons x xs ih =>
    intro acc h
    exact ih _ (nodup_setInsert _ _ h)

theorem zip_map_eq {α β : Type} (f : α → β) :
    ∀ (l : List α) (a : α) (b : β), (a, b) ∈ l.zip (l.map f) → b = f a := by
  intro l
  induction l with
  | nil => intro a b h; cases h
  | cons x xs ih =>
    intro a b h
    simp only [List.map_cons, List.zip_cons_cons] at h
    rcases List.mem_cons.mp h with h1 | h1
    · cases h1; rfl
    · exact ih _ _ h1

theorem mem_zip_fst {α β : Type} : ∀ (l1 : List α) (l2 : List β) (a : α) (b : β),
    (a, b) ∈ l1.zip l2 → a ∈ l1 := by
  intro l1
  induction l1 with
  | nil => intro l2 a b h; cases h
  | cons x xs ih =>
    intro l2 a b h
    cases l2 with
    | nil => cases h
    | cons y ys =>
      rw [List.zip_cons_cons] at h
      rcases List.mem_cons.mp h with h1 | h1
      · cases h1; exact List.mem_cons_self _ _
      · exact List.mem_cons_of_mem _ (ih _ _ _ h1)

/-! ## Identifier extraction and assembly lemmas -/

theorem parseIds_empty : parseIds "" = [] := rfl

theorem extract_mem_step : ∀ (ms : List MatchIn) (acc : List String) (a : String),
    (a ∈ ms.foldl
      (fun acc2 m =>
        let s := matchIdsStr m
        if s = "" then acc2 else (parseIds s).foldl setInsert acc2) acc) ↔
      (a ∈ acc ∨ ∃ m, m ∈ ms ∧ a ∈ parseIds (matchIdsStr m)) := by
  intro ms
  induction ms with
  | nil => simp
  | cons x xs ih =>
    intro acc a
    simp only [List.foldl_cons]
    by_cases hs : matchIdsStr x = ""
    · rw [if_pos hs, ih]
      constructor
      · rintro (h | ⟨m, hm, ha⟩)
        · exact Or.inl h
        · exact Or.inr ⟨m, List.mem_cons_of_mem _ hm, ha⟩
      · rintro (h | ⟨m, hm, ha⟩)
        · exact Or.inl h
        · rcases List.mem_cons.mp hm with rfl | hm2
          · rw [hs, parseIds_empty] at ha
            cases ha
          · exact Or.inr ⟨m, hm2, ha⟩
    · rw [if_neg hs, ih]
      constructor
      · rintro (h | ⟨m, hm, ha⟩)
        · rcases (mem_foldl_setInsert _ _ _).mp h with h1 | h1
          · exact Or.inl h1
          · exact Or.inr ⟨x, List.mem_cons_self _ _, h1⟩
        · exact Or.inr ⟨m, List.mem_cons_of_mem _ hm, ha⟩
      · rintro (h | ⟨m, hm, ha⟩)
        · exact Or.inl ((mem_foldl_setInsert _ _ _).mpr (Or.inl h))
        · rcases List.mem_cons.mp hm with rfl | hm2
          · exact Or.inl ((mem_foldl_setInsert _ _ _).mpr (Or.inr ha))
          · exact Or.inr ⟨m, hm2, ha⟩

theorem extract_article_ids_mem (ms : List MatchIn) (a : String) :
    a ∈ extract_article_ids_set ms ↔ ∃ m, m ∈ ms ∧ a ∈ parseIds (matchIdsStr m) := by
  unfold extract_article_ids_set
  rw [extract_mem_step]
  simp

theorem extract_nodup_step : ∀ (ms : List MatchIn) (acc : List String), acc.Nodup →
    (ms.foldl
      (fun acc2 m =>
        let s := matchIdsStr m
        if s = "" then acc2 else (parseIds s).foldl setInsert acc2) acc).Nodup := by
  intro ms
  induction ms with
  | nil => intro acc h; exact h
  | cons x xs ih =>
    intro acc h
    simp only [List.foldl_cons]
    by_cases hs : matchIdsStr x = ""
    · rw [if_pos hs]; exact ih _ h
    · rw [if_neg hs]; exact ih _ (nodup_foldl_setInsert _ _ h)

theorem extract_article_ids_nodup (ms : List MatchIn) :
    (extract_article_ids_set ms).Nodup :=
  extract_nodup_step ms [] List.nodup_nil

theorem assembleMatch_spec (info : List (String × SiteUrl)) (m : MatchIn) :
    (assembleMatch info m).id = m.id ∧ (assembleMatch info m).score = m.score ∧
    (assembleMatch info m).metadata.rest = (m.metadata.getD ⟨none, []⟩).rest ∧
    (∀ aid ∈ parseIds (matchIdsStr m),
        lookupA (assembleMatch info m).metadata.article_ids aid = some (resolveRec info aid)) ∧
    (∀ k r, (k, r) ∈ (assembleMatch info m).metadata.article_ids →
        k ∈ parseIds (matchIdsStr m)) := by
  unfold assembleMatch matchIdsStr
  by_cases hs : (m.metadata.getD ⟨none, []⟩).article_ids.getD "" = ""
  · rw [if_pos hs, hs]
    refine ⟨rfl, rfl, rfl, ?_, ?_⟩
    · rw [parseIds_empty]
      intro aid ha
      cases ha
    · intro k r hk
      cases hk
  · rw [if_neg hs]
    refine ⟨rfl, rfl, rfl, ?_, ?_⟩
    · intro aid ha
      exact articles_data_lookup info _ aid ha
    · intro k r hk
      exact articles_data_keys info _ k r hk

/-! ## Handler stage equations -/

theorem queryStage_some (w : World) (tk : Int) (v : List Elem) (qr : QueryResults)
    (hq : w.queryResult = some qr) :
    queryStage w tk v =
      (⟨200, RBody.jsonData ⟨qr.matchList.map (assembleMatch (infoOf w qr)), qr.nspace⟩⟩,
        [Ev.queryCalled ⟨"summaries", v, tk, true⟩]
          ++ (if (extract_article_ids_set qr.matchList).isEmpty then []
              else [Ev.lookupCalled (extract_article_ids_set qr.matchList)])
          ++ [Ev.sessionClosed]) := by
  unfold queryStage infoOf
  rw [hq]

theorem queryStage_none (w : World) (tk : Int) (v : List Elem)
    (hq : w.queryResult = none) :
    queryStage w tk v =
      (⟨500, RBody.queryNamespaceErr⟩, [Ev.queryCalled ⟨"summaries", v, tk, true⟩]) := by
  unfold queryStage
  rw [hq]

theorem runPipeline_vec (w : World) (p : Payload) (c : CVal)
    (hd : dateStage w.today p = DateOutcome.ok c)
    (v : List Elem) (hv : vectorStage w (strTrim (p.search_string.getD "")) = some v) :
    runPipeline w p =
      ((queryStage w (p.top_k.getD 3) v).1,
        (if strTrim (p.search_string.getD "") = "" then []
         else [Ev.embedCalled (strTrim (p.search_string.getD ""))])
          ++ (queryStage w (p.top_k.getD 3) v).2) := by
  unfold runPipeline
  rw [hd]
  dsimp only
  rw [hv]

theorem runPipeline_novec (w : World) (p : Payload) (c : CVal)
    (hd : dateStage w.today p = DateOutcome.ok c)
    (hv : vectorStage w (strTrim (p.search_string.getD "")) = none) :
    runPipeline w p =
      (⟨500, RBody.jsonErr "Error generating vector from search string."⟩,
        if strTrim (p.search_string.getD "") = "" then []
        else [Ev.embedCalled (strTrim (p.search_string.getD ""))]) := by
  unfold runPipeline
  rw [hd]
  dsimp only
  rw [hv]

theorem runPipeline_badOrder (w : World) (p : Payload)
    (hd : dateStage w.today p = DateOutcome.badOrder) :
    runPipeline w p =
      (⟨400, RBody.jsonErr "Invalid date format: start_date cannot be after end_date."⟩, []) := by
  unfold runPipeline
  rw [hd]

theorem lambda_handler_post_obj (w : World) (p : Payload)
    (h1 : w.pineconeInitOk = true) (h2 : w.sessionOk = true) (h3 : w.openaiKeyPresent = true) :
    lambda_handler w ⟨"POST", Body.obj p⟩ =
      ((runPipeline w p).1, Ev.sessionCreated :: (runPipeline w p).2) := by
  unfold lambda_handler
  simp [h1, h2, h3]

theorem dateStage_badOrder (today : Date) (p : Payload) (ss es : String) (s e : Date)
    (hss : p.start_date = some ss) (hes : p.end_date = some es)
    (hne1 : ss ≠ "") (hne2 : es ≠ "")
    (hp1 : parseDate ss = some s) (hp2 : parseDate es = some e)
    (hlt : toOrdinal e < toOrdinal s) :
    dateStage today p = DateOutcome.badOrder := by
  unfold dateStage
  rw [hss, hes]
  dsimp only
  rw [if_neg (by simp [hne1, hne2]), hp1]
  dsimp only
  rw [hp2]
  dsimp only
  rw [if_pos hlt]

theorem vectorStage_empty (w : World) :
    vectorStage w "" = some (List.replicate 1536 (Elem.num 0)) := by
  unfold vectorStage
  rw [if_pos rfl]

theorem vectorStage_bad (w : World) (search : String) (hne : search ≠ "")
    (hbad : w.embed search = none ∨
      ∃ ev, w.embed search = some ev ∧ is_valid_vector ev 1536 = false) :
    vectorStage w search = none := by
  unfold vectorStage
  rw [if_neg hne]
  rcases hbad with h | ⟨ev, he, hvv⟩
  · rw [h]
  · rw [he]
    dsimp only
    rw [hvv]
    simp

theorem queryCallsOf_queryStage (w : World) (tk : Int) (v : List Elem) :
    queryCallsOf (queryStage w tk v).2 = [⟨"summaries", v, tk, true⟩] := by
  cases hq : w.queryResult with
  | none => rw [queryStage_none w tk v hq]; rfl
  | some qr =>
    rw [queryStage_some w tk v qr hq]
    by_cases hie : (extract_article_ids_set qr.matchList).isEmpty
    · rw [if_pos hie]; rfl
    · rw [if_neg hie]; rfl

theorem no_embed_queryStage (w : World) (tk : Int) (v : List Elem) (s : String) :
    Ev.embedCalled s ∉ (queryStage w tk v).2 := by
  cases hq : w.queryResult with
  | none => rw [queryStage_none w tk v hq]; simp
  | some qr =>
    rw [queryStage_some w tk v qr hq]
    by_cases hie : (extract_article_ids_set qr.matchList).isEmpty
    · rw [if_pos hie]; simp
    · rw [if_neg hie]; simp

theorem infoOf_eq (w : World) (qr : QueryResults)
    (hne : ¬(extract_article_ids_set qr.matchList).isEmpty = true) :
    infoOf w qr = get_article_info_from_snowflake (extract_article_ids_set qr.matchList)
      (w.collect (extract_article_ids_set qr.matchList)) := by
  unfold infoOf
  rw [if_neg hne]

theorem infoOf_of_collect_none (w : World) (qr : QueryResults)
    (hc : w.collect (extract_article_ids_set qr.matchList) = none) :
    infoOf w qr = [] := by
  unfold infoOf
  by_cases hie : (extract_article_ids_set qr.matchList).isEmpty
  · rw [if_pos hie]
  · rw [if_neg hie]
    unfold get_article_info_from_snowflake
    rw [hc]

/-! ## The claims -/

/-- C1: in the assembled response, for every match returned by the vector
query, every identifier token parsed from the delimited identifier field
of that match appears as a key of the final identifier mapping of that
match, bound to the record produced by the metadata resolution when the
identifier was resolved and to the record with both fields null
otherwise; no identifier is omitted, the mapping holds only those
identifiers, and the delimited string is replaced in place by this
mapping while the other metadata entries, the id and the score are kept. -/
theorem C1_response_mapping (w : World) (p : Payload) (qr : QueryResults) (c : CVal)
    (v : List Elem)
    (h1 : w.pineconeInitOk = true) (h2 : w.sessionOk = true) (h3 : w.openaiKeyPresent = true)
    (hd : dateStage w.today p = DateOutcome.ok c)
    (hv : vectorStage w (strTrim (p.search_string.getD "")) = some v)
    (hq : w.queryResult = some qr) :
    ∃ rd, (lambda_handler w ⟨"POST", Body.obj p⟩).1 = ⟨200, RBody.jsonData rd⟩ ∧
      rd.nspace = qr.nspace ∧
      rd.matchList.length = qr.matchList.length ∧
      ∀ mIn mOut, (mIn, mOut) ∈ qr.matchList.zip rd.matchList →
        mOut.id = mIn.id ∧ mOut.score = mIn.score ∧
        mOut.metadata.rest = (mIn.metadata.getD ⟨none, []⟩).rest ∧
        (∀ aid ∈ parseIds (matchIdsStr mIn),
          lookupA mOut.metadata.article_ids aid =
            some (resolveRec (get_article_info_from_snowflake
              (extract_article_ids_set qr.matchList)
              (w.collect (extract_article_ids_set qr.matchList))) aid)) ∧
        (∀ k r, (k, r) ∈ mOut.metadata.article_ids → k ∈ parseIds (matchIdsStr mIn)) := by
  rw [lambda_handler_post_obj w p h1 h2 h3, runPipeline_vec w p c hd v hv,
    queryStage_some w (p.top_k.getD 3) v qr hq]
  refine ⟨⟨qr.matchList.map (assembleMatch (infoOf w qr)), qr.nspace⟩, rfl, rfl, by simp, ?_⟩
  intro mIn mOut hmem
  have hout : mOut = assembleMatch (infoOf w qr) mIn := zip_map_eq _ _ _ _ hmem
  have hin : mIn ∈ qr.matchList := mem_zip_fst _ _ _ _ hmem
  subst hout
  obtain ⟨hid, hsc, hrest, hlook, hkeys⟩ := assembleMatch_spec (infoOf w qr) mIn
  by_cases hie : (extract_article_ids_set qr.matchList).isEmpty
  · refine ⟨hid, hsc, hrest, ?_, hkeys⟩
    intro aid ha
    exfalso
    have hmem2 : aid ∈ extract_article_ids_set qr.matchList :=
      (extract_article_ids_mem _ _).mpr ⟨mIn, hin, ha⟩
    rw [List.isEmpty_iff] at hie
    rw [hie] at hmem2
    cases hmem2
  · refine ⟨hid, hsc, hrest, ?_, hkeys⟩
    intro aid ha
    rw [← infoOf_eq w qr hie]
    exact hlook aid ha

theorem C1_response_mapping_witness :
    exW1.pineconeInitOk = true ∧ exW1.queryResult = some exQR ∧
    (∃ rd, (lambda_handler exW1 ⟨"POST", Body.obj exP0⟩).1 = ⟨200, RBody.jsonData rd⟩ ∧
      rd.nspace = exQR.nspace ∧
      rd.matchList.length = exQR.matchList.length ∧
      ∀ mIn mOut, (mIn, mOut) ∈ exQR.matchList.zip rd.matchList →
        mOut.id = mIn.id ∧ mOut.score = mIn.score ∧
        mOut.metadata.rest = (mIn.metadata.getD ⟨none, []⟩).rest ∧
        (∀ aid ∈ parseIds (matchIdsStr mIn),
          lookupA mOut.metadata.article_ids aid =
            some (resolveRec (get_article_info_from_snowflake
              (extract_article_ids_set exQR.matchList)
              (exW1.collect (extract_article_ids_set exQR.matchList))) aid)) ∧
        (∀ k r, (k, r) ∈ mOut.metadata.article_ids → k ∈ parseIds (matchIdsStr mIn))) :=
  ⟨rfl, rfl,
    C1_response_mapping exW1 exP0 exQR (generate_recent_dates ⟨2024, 1, 10⟩ 5)
      (List.replicate 1536 (Elem.num 0)) rfl rfl rfl rfl rfl rfl⟩

/-- C2: when the relational store batch lookup raises, the request is not
aborted: the metadata resolver returns the empty mapping, the pipeline
continues, and the handler still returns a 200 response in which every
extracted identifier of every match is mapped to the record with both
fields null. -/
theorem C2_degraded_lookup (w : World) (p : Payload) (qr : QueryResults) (c : CVal)
    (v : List Elem)
    (h1 : w.pineconeInitOk = true) (h2 : w.sessionOk = true) (h3 : w.openaiKeyPresent = true)
    (hd : dateStage w.today p = DateOutcome.ok c)
    (hv : vectorStage w (strTrim (p.search_string.getD "")) = some v)
    (hq : w.queryResult = some qr)
    (hc : w.collect (extract_article_ids_set qr.matchList) = none) :
    get_article_info_from_snowflake (extract_article_ids_set qr.matchList)
      (w.collect (extract_article_ids_set qr.matchList)) = [] ∧
    ∃ rd, (lambda_handler w ⟨"POST", Body.obj p⟩).1 = ⟨200, RBody.jsonData rd⟩ ∧
      rd.matchList.length = qr.matchList.length ∧
      ∀ mIn mOut, (mIn, mOut) ∈ qr.matchList.zip rd.matchList →
        ∀ aid ∈ parseIds (matchIdsStr mIn),
          lookupA mOut.metadata.article_ids aid = some ⟨none, none⟩ := by
  constructor
  · unfold get_article_info_from_snowflake
    rw [hc]
  · rw [lambda_handler_post_obj w p h1 h2 h3, runPipeline_vec w p c hd v hv,
      queryStage_some w (p.top_k.getD 3) v qr hq]
    refine ⟨⟨qr.matchList.map (assembleMatch (infoOf w qr)), qr.nspace⟩, rfl, by simp, ?_⟩
    intro mIn mOut hmem
    have hout : mOut = assembleMatch (infoOf w qr) mIn := zip_map_eq _ _ _ _ hmem
    subst hout
    obtain ⟨_, _, _, hlook, _⟩ := assembleMatch_spec (infoOf w qr) mIn
    intro aid ha
    rw [hlook aid ha, infoOf_of_collect_none w qr hc]
    rfl

theorem C2_degraded_lookup_witness :
    exW2.collect (extract_article_ids_set exQR.matchList) = none ∧
    (get_article_info_from_snowflake (extract_article_ids_set exQR.matchList)
      (exW2.collect (extract_article_ids_set exQR.matchList)) = [] ∧
    ∃ rd, (lambda_handler exW2 ⟨"POST", Body.obj exP0⟩).1 = ⟨200, RBody.jsonData rd⟩ ∧
      rd.matchList.length = exQR.matchList.length ∧
      ∀ mIn mOut, (mIn, mOut) ∈ exQR.matchList.zip rd.matchList →
        ∀ aid ∈ parseIds (matchIdsStr mIn),
          lookupA mOut.metadata.article_ids aid = some ⟨none, none⟩) :=
  ⟨rfl,
    C2_degraded_lookup exW2 exP0 exQR (generate_recent_dates ⟨2024, 1, 10⟩ 5)
      (List.replicate 1536 (Elem.num 0)) rfl rfl rfl rfl rfl rfl rfl⟩

/-- C3: with a nonempty trimmed search string, if the embedding provider
fails or hands back anything that is not a list of exactly 1536 numeric
items, the handler answers 500 with the structured embedding error body,
and no vector query is issued (in particular no zero vector is
substituted for the failed embedding). -/
theorem C3_embedding_failure (w : World) (p : Payload) (c : CVal)
    (h1 : w.pineconeInitOk = true) (h2 : w.sessionOk = true) (h3 : w.openaiKeyPresent = true)
    (hd : dateStage w.today p = DateOutcome.ok c)
    (hne : strTrim (p.search_string.getD "") ≠ "")
    (hbad : w.embed (strTrim (p.search_string.getD "")) = none ∨
      ∃ ev, w.embed (strTrim (p.search_string.getD "")) = some ev ∧
        is_valid_vector ev 1536 = false) :
    (lambda_handler w ⟨"POST", Body.obj p⟩).1 =
      ⟨500, RBody.jsonErr "Error generating vector from search string."⟩ ∧
    queryCallsOf (lambda_handler w ⟨"POST", Body.obj p⟩).2 = [] := by
  have hv := vectorStage_bad w _ hne hbad
  rw [lambda_handler_post_obj w p h1 h2 h3, runPipeline_novec w p c hd hv]
  refine ⟨rfl, ?_⟩
  rw [if_neg hne]
  rfl

theorem C3_embedding_failure_witness :
    strTrim (exPS.search_string.getD "") ≠ "" ∧
    exW2.embed (strTrim (exPS.search_string.getD "")) = none ∧
    ((lambda_handler exW2 ⟨"POST", Body.obj exPS⟩).1 =
      ⟨500, RBody.jsonErr "Error generating vector from search string."⟩ ∧
    queryCallsOf (lambda_handler exW2 ⟨"POST", Body.obj exPS⟩).2 = []) :=
  ⟨by decide, rfl,
    C3_embedding_failure exW2 exPS (generate_recent_dates ⟨2024, 1, 10⟩ 5)
      rfl rfl rfl rfl (by decide) (Or.inl rfl)⟩

/-- C4: with an absent search string or one that trims to empty, exactly
one vector query is issued and its vector is the all zero vector of
length 1536; the embedding provider is never called. -/
theorem C4_zero_vector (w : World) (p : Payload) (c : CVal)
    (h1 : w.pineconeInitOk = true) (h2 : w.sessionOk = true) (h3 : w.openaiKeyPresent = true)
    (hd : dateStage w.today p = DateOutcome.ok c)
    (hemp : strTrim (p.search_string.getD "") = "") :
    queryCallsOf (lambda_handler w ⟨"POST", Body.obj p⟩).2 =
      [⟨"summaries", List.replicate 1536 (Elem.num 0), p.top_k.getD 3, true⟩] ∧
    ∀ s, Ev.embedCalled s ∉ (lambda_handler w ⟨"POST", Body.obj p⟩).2 := by
  have hv : vectorStage w (strTrim (p.search_string.getD "")) =
      some (List.replicate 1536 (Elem.num 0)) := by
    rw [hemp]; exact vectorStage_empty w
  rw [lambda_handler_post_obj w p h1 h2 h3, runPipeline_vec w p c hd _ hv]
  rw [if_pos hemp]
  constructor
  · simp only [List.nil_append]
    show queryCallsOf (Ev.sessionCreated :: (queryStage w (p.top_k.getD 3) _).2) = _
    rw [show ∀ tr, queryCallsOf (Ev.sessionCreated :: tr) = queryCallsOf tr from fun _ => rfl]
    exact queryCallsOf_queryStage w _ _
  · intro s
    simp only [List.nil_append, List.mem_cons]
    rintro (h | h)
    · cases h
    · exact no_embed_queryStage w _ _ s h

theorem C4_zero_vector_witness :
    strTrim (exP0.search_string.getD "") = "" ∧
    (queryCallsOf (lambda_handler exW1 ⟨"POST", Body.obj exP0⟩).2 =
      [⟨"summaries", List.replicate 1536 (Elem.num 0), exP0.top_k.getD 3, true⟩] ∧
    ∀ s, Ev.embedCalled s ∉ (lambda_handler exW1 ⟨"POST", Body.obj exP0⟩).2) :=
  ⟨rfl,
    C4_zero_vector exW1 exP0 (generate_recent_dates ⟨2024, 1, 10⟩ 5) rfl rfl rfl rfl rfl⟩

/-- C5 (amended): for every pair of valid dates with start not after end
and end strictly before 9999-12-31 (the datetime maximum, at which the
day increment of the loop overflows), the generated created filter holds
exactly the inclusive day count many entries, each shaped YYYY-MM-DD;
and for start after end the handler returns 400 with the fixed error
body, without issuing any embedding, vector query or metadata lookup
call. -/
theorem C5_date_range_amended :
    (∀ s e : Date, ValidDate s → toOrdinal s ≤ toOrdinal e →
      toOrdinal e < toOrdinal ⟨9999, 12, 31⟩ →
      ∃ dates : List String, generate_date_range s e =
          Except.ok (CVal.dict [("$in", CVal.arr (dates.map Scalar.s))]) ∧
        dates.length = toOrdinal e + 1 - toOrdinal s ∧
        ∀ x ∈ dates, isYYYYMMDD x = true) ∧
    (∀ (w : World) (p : Payload) (ss es : String) (s e : Date),
      w.pineconeInitOk = true → w.sessionOk = true → w.openaiKeyPresent = true →
      p.start_date = some ss → p.end_date = some es → ss ≠ "" → es ≠ "" →
      parseDate ss = some s → parseDate es = some e → toOrdinal e < toOrdinal s →
      lambda_handler w ⟨"POST", Body.obj p⟩ =
        (⟨400, RBody.jsonErr "Invalid date format: start_date cannot be after end_date."⟩,
          [Ev.sessionCreated])) := by
  constructor
  · intro s e hv hle hb
    have hb2 : toOrdinal e < 3652059 := by
      rw [show toOrdinal ⟨9999, 12, 31⟩ = 3652059 from by decide] at hb
      exact hb
    obtain ⟨l, hl, hlen, hmem⟩ :=
      dateRangeLoop_ok (toOrdinal e + 1 - toOrdinal s) s e hv rfl hb2
    refine ⟨l, ?_, hlen, ?_⟩
    · unfold generate_date_range
      rw [hl]
      rfl
    · intro x hx
      obtain ⟨dt, _, _, _, hfd⟩ := hmem x hx
      rw [hfd]
      exact format_shape dt
  · intro w p ss es s e h1 h2 h3 hss hes hne1 hne2 hp1 hp2 hlt
    rw [lambda_handler_post_obj w p h1 h2 h3,
      runPipeline_badOrder w p
        (dateStage_badOrder w.today p ss es s e hss hes hne1 hne2 hp1 hp2 hlt)]

theorem C5_date_range_amended_witness :
    (ValidDate ⟨2024, 3, 1⟩ ∧ toOrdinal ⟨2024, 3, 1⟩ ≤ toOrdinal ⟨2024, 3, 5⟩ ∧
      toOrdinal ⟨2024, 3, 5⟩ < toOrdinal ⟨9999, 12, 31⟩ ∧
      (∃ dates : List String, generate_date_range ⟨2024, 3, 1⟩ ⟨2024, 3, 5⟩ =
          Except.ok (CVal.dict [("$in", CVal.arr (dates.map Scalar.s))]) ∧
        dates.length = toOrdinal ⟨2024, 3, 5⟩ + 1 - toOrdinal ⟨2024, 3, 1⟩ ∧
        ∀ x ∈ dates, isYYYYMMDD x = true)) ∧
    lambda_handler exWq ⟨"POST", Body.obj exPd⟩ =
      (⟨400, RBody.jsonErr "Invalid date format: start_date cannot be after end_date."⟩,
        [Ev.sessionCreated]) :=
  ⟨⟨by decide, by decide, by decide,
    C5_date_range_amended.1 ⟨2024, 3, 1⟩ ⟨2024, 3, 5⟩ (by decide) (by decide) (by decide)⟩,
    C5_date_range_amended.2 exWq exPd "2024-03-05" "2024-03-01" ⟨2024, 3, 5⟩ ⟨2024, 3, 1⟩
      rfl rfl rfl rfl rfl (by decide) (by decide) rfl rfl (by decide)⟩

/-- C5 counterexample: at start = end = 9999-12-31 (well formed dates
with start not after end) the date loop hits the datetime overflow, so
no created filter is generated at all and the whole request answers 500
Internal Server Error, against the unrestricted claim. -/
theorem C5_overflow_counterexample :
    generate_date_range ⟨9999, 12, 31⟩ ⟨9999, 12, 31⟩ = Except.error () ∧
    lambda_handler
        ⟨true, true, true, ⟨2024, 1, 10⟩, fun _ => none, none, fun _ => none⟩
        ⟨"POST", Body.obj
          ⟨none, none, none, none, some "9999-12-31", some "9999-12-31", none, none⟩⟩ =
      (⟨500, RBody.jsonStr "Internal Server Error"⟩, [Ev.sessionCreated]) := by
  exact ⟨rfl, rfl⟩

/-- C6: after the cleaning pass, no inclusion entry with an empty value
list and no empty nested dictionary remains anywhere in the filter
structure, at any nesting depth: empty entries are removed rather than
kept. -/
theorem C6_clean_filters (m : List (String × CVal)) :
    goodMap (clean_empty_arrays_and_objects m) = true := by
  induction m using clean_empty_arrays_and_objects.induct with
  | case1 => simp [clean_empty_arrays_and_objects, goodMap]
  | case2 k m rest c hie ihm ihr =>
    rw [clean_empty_arrays_and_objects]
    rw [if_pos hie]
    exact ihr
  | case3 k m rest c hie ihm ihr =>
    rw [clean_empty_arrays_and_objects]
    rw [if_neg hie]
    rw [goodMap]
    simp [ihm, ihr, hie]
  | case4 k l rest hie ihr =>
    rw [clean_empty_arrays_and_objects, if_pos hie]
    exact ihr
  | case5 k l rest hie ihr =>
    rw [clean_empty_arrays_and_objects, if_neg hie]
    rw [goodMap]
    simp [ihr, hie]
  | case6 k v rest ihr =>
    rw [clean_empty_arrays_and_objects]
    rw [goodMap]
    exact ihr

/-- C7: the cross reference identifier set is deduplicated and contains
exactly the tokens obtained from each match by splitting the delimited
identifier field on commas, trimming whitespace and discarding empty
tokens; matches with an absent or empty identifier field contribute
nothing. -/
theorem C7_extraction_dedup (ms : List MatchIn) :
    (extract_article_ids_set ms).Nodup ∧
    ∀ a, a ∈ extract_article_ids_set ms ↔ ∃ m, m ∈ ms ∧ a ∈ parseIds (matchIdsStr m) :=
  ⟨extract_article_ids_nodup ms, fun a => extract_article_ids_mem ms a⟩

/-- C8: the normalized filter set is never passed to the vector index
query: two requests over the same world that agree on search string and
top_k but differ arbitrarily in the filter fields (symbol, cat, the two
scores, the date bounds) issue exactly the same sequence of nearest
neighbor query calls (namespace, vector, top_k, include_metadata; a
QueryCall carries no filter argument at all). -/
theorem C8_filters_unused (w : World) (p1 p2 : Payload)
    (hs : p1.search_string = p2.search_string) (ht : p1.top_k = p2.top_k)
    (c1 c2 : CVal)
    (hd1 : dateStage w.today p1 = DateOutcome.ok c1)
    (hd2 : dateStage w.today p2 = DateOutcome.ok c2) :
    queryCallsOf (lambda_handler w ⟨"POST", Body.obj p1⟩).2 =
      queryCallsOf (lambda_handler w ⟨"POST", Body.obj p2⟩).2 := by
  by_cases h1 : w.pineconeInitOk = true
  · by_cases h2 : w.sessionOk = true
    · by_cases h3 : w.openaiKeyPresent = true
      · rw [lambda_handler_post_obj w p1 h1 h2 h3, lambda_handler_post_obj w p2 h1 h2 h3]
        rw [show ∀ tr, queryCallsOf (Ev.sessionCreated :: tr) = queryCallsOf tr from fun _ => rfl,
          show ∀ tr, queryCallsOf (Ev.sessionCreated :: tr) = queryCallsOf tr from fun _ => rfl]
        cases hv : vectorStage w (strTrim (p1.search_string.getD "")) with
        | none =>
          have hv2 : vectorStage w (strTrim (p2.search_string.getD "")) = none := by
            rw [← hs]; exact hv
          rw [runPipeline_novec w p1 c1 hd1 hv, runPipeline_novec w p2 c2 hd2 hv2]
          by_cases he1 : strTrim (p1.search_string.getD "") = "" <;>
            by_cases he2 : strTrim (p2.search_string.getD "") = ""
          · rw [if_pos he1, if_pos he2]
          · rw [if_pos he1, if_neg he2]; rfl
          · rw [if_neg he1, if_pos he2]; rfl
          · rw [if_neg he1, if_neg he2]; rfl
        | some v =>
          have hv2 : vectorStage w (strTrim (p2.search_string.getD "")) = some v := by
            rw [← hs]; exact hv
          rw [runPipeline_vec w p1 c1 hd1 v hv, runPipeline_vec w p2 c2 hd2 v hv2]
          simp only [queryCallsOf, List.filterMap_append]
          rw [ht]
          congr 1
          by_cases he1 : strTrim (p1.search_string.getD "") = "" <;>
            by_cases he2 : strTrim (p2.search_string.getD "") = ""
          · rw [if_pos he1, if_pos he2]
          · rw [if_pos he1, if_neg he2]; rfl
          · rw [if_neg he1, if_pos he2]; rfl
          · rw [if_neg he1, if_neg he2]; rfl
      · have h3f : w.openaiKeyPresent = false := by
          cases hx : w.openaiKeyPresent
          · rfl
          · exact absurd hx h3
        unfold lambda_handler
        simp [h1, h2, h3f]
    · have h2f : w.sessionOk = false := by
        cases hx : w.sessionOk
        · rfl
        · exact absurd hx h2
      unfold lambda_handler
      simp [h1, h2f]
  · have h1f : w.pineconeInitOk = false := by
      cases hx : w.pineconeInitOk
      · rfl
      · exact absurd hx h1
    unfold lambda_handler
    simp [h1f]

theorem C8_filters_unused_witness :
    exP0.search_string = exPSym.search_string ∧ exP0.top_k = exPSym.top_k ∧
    dateStage exW1.today exP0 = DateOutcome.ok (generate_recent_dates ⟨2024, 1, 10⟩ 5) ∧
    dateStage exW1.today exPSym = DateOutcome.ok (generate_recent_dates ⟨2024, 1, 10⟩ 5) ∧
    queryCallsOf (lambda_handler exW1 ⟨"POST", Body.obj exP0⟩).2 =
      queryCallsOf (lambda_handler exW1 ⟨"POST", Body.obj exPSym⟩).2 :=
  ⟨rfl, rfl, rfl, rfl,
    C8_filters_unused exW1 exP0 exPSym rfl rfl _ _ rfl rfl⟩

/-- C9: the claim demands the session be closed on every exit path after
its creation, but on the vector query failure path the handler returns
before the close statement: the session is created, the response is the
500 query error, and no close is ever recorded. -/
theorem C9_session_leak :
    (lambda_handler ⟨true, true, true, ⟨2024, 1, 10⟩, fun _ => none, none, fun _ => none⟩
        ⟨"POST", Body.obj ⟨none, none, none, none, none, none, none, none⟩⟩).1.statusCode
      = 500 ∧
    Ev.sessionCreated ∈
      (lambda_handler ⟨true, true, true, ⟨2024, 1, 10⟩, fun _ => none, none, fun _ => none⟩
        ⟨"POST", Body.obj ⟨none, none, none, none, none, none, none, none⟩⟩).2 ∧
    Ev.sessionClosed ∉
      (lambda_handler ⟨true, true, true, ⟨2024, 1, 10⟩, fun _ => none, none, fun _ => none⟩
        ⟨"POST", Body.obj ⟨none, none, none, none, none, none, none, none⟩⟩).2 := by
  refine ⟨rfl, ?_, ?_⟩
  · decide
  · decide

/-- C10: a POST whose body is well formed JSON but not a JSON object does
not reach the 400 invalid JSON branch: field extraction raises an
attribute error that the catch all handler turns into the generic 500
Internal Server Error response. -/
theorem C10_nonobject_body (w : World)
    (h1 : w.pineconeInitOk = true) (h2 : w.sessionOk = true) (h3 : w.openaiKeyPresent = true) :
    lambda_handler w ⟨"POST", Body.nonObject⟩ =
      (⟨500, RBody.jsonStr "Internal Server Error"⟩, [Ev.sessionCreated]) ∧
    (lambda_handler w ⟨"POST", Body.nonObject⟩).1.body ≠
      RBody.jsonErr "Invalid JSON payload." := by
  have he : lambda_handler w ⟨"POST", Body.nonObject⟩ =
      (⟨500, RBody.jsonStr "Internal Server Error"⟩, [Ev.sessionCreated]) := by
    unfold lambda_handler
    simp [h1, h2, h3]
  refine ⟨he, ?_⟩
  rw [he]
  simp

theorem C10_nonobject_body_witness :
    exW1.pineconeInitOk = true ∧ exW1.sessionOk = true ∧ exW1.openaiKeyPresent = true ∧
    (lambda_handler exW1 ⟨"POST", Body.nonObject⟩ =
      (⟨500, RBody.jsonStr "Internal Server Error"⟩, [Ev.sessionCreated]) ∧
    (lambda_handler exW1 ⟨"POST", Body.nonObject⟩).1.body ≠
      RBody.jsonErr "Invalid JSON payload.") :=
  ⟨rfl, rfl, rfl, C10_nonobject_body exW1 rfl rfl rfl⟩

end Pine
